import Mathlib

/-!
# Verification of the Attendance_management backend (`server.js`)

A shallow embedding of the Express/Google-Sheets backend in `src/server.js`.

Modelling conventions:

* The three in-memory mirrors (`employees`, `attendanceData`, `leaveData`) are
  JS objects keyed by strings; they are embedded as functions
  `String → Option _`.  A nested object (`attendanceData[empId]`) is itself
  `String → Option _`, and the outer map distinguishes "key absent" from
  "key maps to an empty object", exactly as JS does.
* The spreadsheet store is external state.  Each sheet is a list of rows
  (list index `n` is sheet row `n + 1`).  Leave rows are `List String`
  (positional cells, matching `row[0]`, `row[1]`, … in the source); attendance
  rows are a record of cells, with the serialized-JSON location column
  embedded by its parse outcome (`LocCell`): JS `JSON.parse` on the cell either
  yields an object, or the cell is falsy (empty/missing, the `|| '\x7b\x7d'`
  branch), or the parse throws — those three outcomes are all the code
  observes.
* A fallible store call (`sheets.spreadsheets.values.append` / `update` /
  `get`) is given a boolean outcome parameter (`appendOk` / `storeOk`): `true`
  means the awaited call resolved (and the store mutation is applied), `false`
  means it rejected, landing in the handler's `catch` branch with the store
  unchanged.
* `jwt.sign`/`jwt.verify` are embedded by their outcome: a presented token
  either verifies to a payload `(userId, isAdmin)` or fails the
  signature/expiry check (`TokenCheck.invalid`).  A signed token carries its
  payload, which is what `jwt.verify` recovers.
* `Date.now()` and `new Date().toLocaleDateString()` are passed in as
  parameters (`now : Nat`, `applied : String`); successive calls of the
  process observe non-decreasing `now` values (millisecond clock), which is a
  hypothesis, never a built-in strictness.
* Geolocation coordinate pairs are never inspected by the server, only passed
  through; they are embedded as opaque `String` tokens.
-/

/-- An employee record of the `employees` mirror:
`employees[row[0]] = { name: row[1], password: row[2], isAdmin: row[3] === 'true' }`. -/
structure Employee where
  name : String
  password : String
  isAdmin : Bool
deriving DecidableEq

/-- The location payload of a `POST /api/attendance` body: an object with
optional `checkIn` / `checkOut` coordinate members (each an opaque token). -/
structure LocVal where
  checkIn : Option String
  checkOut : Option String
deriving DecidableEq

/-- The serialized-JSON location cell of an attendance sheet row, embedded by
its `JSON.parse` outcome: `blank` is a falsy cell (missing or empty string, the
`row[4] || '\x7b\x7d'` branch), `obj ci co` a cell parsing to an object whose
`checkIn`/`checkOut` members are truthy when present, `malformed` a non-empty
cell on which `JSON.parse` throws. -/
inductive LocCell
  | blank
  | obj (checkIn : Option String) (checkOut : Option String)
  | malformed
deriving DecidableEq

/-- One row of the `Attendance!A:G` sheet (columns A–G positionally). -/
structure AttRow where
  empId : String
  date : String
  checkIn : String
  checkOut : String
  location : LocCell
  isLate : String
  isHalfDay : String
deriving DecidableEq

/-- A record of the `attendanceData` mirror.  The two write paths store
different shapes (as in JS): `posted` is what `POST /api/attendance` puts in
the mirror (raw `location` from the body), `fromSheet` is what
`loadAttendanceFromSheets` puts there (`checkInLocation`/`checkOutLocation`
split out, `none` standing for the `|| \x7b\x7d` empty-object fallback). -/
inductive AttRecord
  | posted (checkIn : String) (checkOut : String) (location : LocVal)
      (isLate : Bool) (isHalfDay : Bool) (date : String)
  | fromSheet (checkIn : String) (checkOut : String)
      (checkInLocation : Option String) (checkOutLocation : Option String)
      (isLate : Bool) (isHalfDay : Bool) (date : String)
deriving DecidableEq

/-- A leave request of the `leaveData` mirror.  `id` is a JS number:
`some n` a finite integer, `none` the `NaN` produced by `parseInt` on a
non-numeric cell.  `ltype` embeds the JS field `type` (a Lean keyword). -/
structure Leave where
  id : Option Nat
  ltype : String
  fromDate : String
  toDate : String
  reason : String
  status : String
  appliedOn : String
  employeeId : String
deriving DecidableEq

/-- HTTP-level outcome of a non-login handler: `res.json(\x7bsuccess: true\x7d)`
or `res.status(s).json(\x7b message: msg \x7d)`. -/
inductive ApiResult
  | ok
  | err (status : Nat) (msg : String)
deriving DecidableEq

/-- Payload of a signed session token: `jwt.sign(\x7b userId, isAdmin \x7d, …)`.
`jwt.verify` with the same secret recovers exactly this payload. -/
structure SessionToken where
  userId : String
  isAdmin : Bool
deriving DecidableEq

/-- Outcome of `POST /api/login`: success carries the employee's name and the
signed token; failure is `401 Invalid credentials`. -/
inductive LoginResult
  | ok (name : String) (token : SessionToken)
  | fail (status : Nat) (msg : String)
deriving DecidableEq

/-- Verification outcome of a presented bearer token: `jwt.verify` either
yields the decoded payload or throws (bad signature or expired). -/
inductive TokenCheck
  | valid (userId : String) (isAdmin : Bool)
  | invalid
deriving DecidableEq

/-- The per-employee date-keyed attendance object `attendanceData[empId]`. -/
abbrev AttDayMap := String → Option AttRecord

/-- The `attendanceData` mirror. -/
abbrev AttMirror := String → Option AttDayMap

/-- The `leaveData` mirror. -/
abbrev LeaveMirror := String → Option (List Leave)

/-- The whole process state: the three in-memory mirrors plus the three sheets
of the external store. -/
@[ext]
structure ServerState where
  employees : String → Option Employee
  attendanceData : AttMirror
  leaveData : LeaveMirror
  attendanceStore : List AttRow
  leaveStore : List (List String)
  employeeStore : List (List String)

/-- Positional cell access on a sheet row, `row[i]` (missing cells read as the
empty string). -/
def lcell (row : List String) (i : Nat) : String :=
  (row[i]?).getD ""

/-- JS `parseInt` on an id cell: `none` models `NaN` (no leading digits),
otherwise the leading digit run as a number. -/
def jsParseInt (s : String) : Option Nat :=
  let ds := s.takeWhile Char.isDigit
  if ds.isEmpty then none else ds.toNat?

/-- JS `Number.prototype.toString` on a leave id (`NaN` prints as "NaN"),
as used by `l.id.toString() === leaveId`. -/
def idToString : Option Nat → String
  | some n => toString n
  | none => "NaN"

/-- JS boolean serialized into a sheet cell. -/
def boolCell (b : Bool) : String :=
  if b then "true" else "false"

/-- `JSON.parse(row[4] || '\x7b\x7d')` followed by the member reads
`location.checkIn || \x7b\x7d` / `location.checkOut || \x7b\x7d`: `none` is a
thrown `SyntaxError` (malformed cell), `some (ci, co)` the extracted optional
members (falsy cell parses as the empty object, whose members default). -/
def parseLocCell : LocCell → Option (Option String × Option String)
  | .blank => some (none, none)
  | .obj ci co => some (ci, co)
  | .malformed => none

/-- `POST /api/login` (`server.js` lines 128–136): exact plaintext password
match against the `employees` mirror; on match a token over
`\x7b userId: id, isAdmin \x7d` is signed, on mismatch or unknown id a single
`401 Invalid credentials` response.  The handler never mutates state. -/
def login (st : ServerState) (id password : String) : ServerState × LoginResult :=
  match st.employees id with
  | some emp =>
      if emp.password = password then
        (st, .ok emp.name ⟨id, emp.isAdmin⟩)
      else
        (st, .fail 401 "Invalid credentials")
  | none => (st, .fail 401 "Invalid credentials")

/-- The `verifyAdmin` middleware (`server.js` lines 139–150): no bearer token
→ `401 Access denied`; `jwt.verify` throws → `401 Invalid token`; decoded
payload not admin → `403 Admin access required`; otherwise the decoded
identity is passed on. -/
def verifyAdmin (tok : Option TokenCheck) : Except ApiResult (String × Bool) :=
  match tok with
  | none => .error (.err 401 "Access denied")
  | some .invalid => .error (.err 401 "Invalid token")
  | some (.valid u a) =>
      if a then .ok (u, a) else .error (.err 403 "Admin access required")

/-- An admin-guarded route: the guarded handler runs only when `verifyAdmin`
passes, receiving the decoded identity (`req.user`). -/
def runAdminRoute (tok : Option TokenCheck) (handler : String × Bool → ApiResult) :
    ApiResult :=
  match verifyAdmin tok with
  | .error e => e
  | .ok user => handler user

/-- `GET /api/attendance/:empId` (lines 153–156), read at one date:
`(attendanceData[empId] || \x7b\x7d)[date]`. -/
def getAttendance (st : ServerState) (empId date : String) : Option AttRecord :=
  match st.attendanceData empId with
  | some dayMap => dayMap date
  | none => none

/-- `GET /api/leave/:empId` (lines 189–192): `leaveData[empId] || []`. -/
def getLeave (st : ServerState) (empId : String) : List Leave :=
  (st.leaveData empId).getD []

/-- The mirror record stored by `POST /api/attendance`. -/
def postedRecord (checkIn checkOut : String) (location : LocVal)
    (isLate isHalfDay : Bool) (date : String) : AttRecord :=
  .posted checkIn checkOut location isLate isHalfDay date

/-- The sheet row appended by `POST /api/attendance`:
`[empId, date, checkIn, checkOut, JSON.stringify(location), isLate, isHalfDay]`.
`JSON.stringify` of the body's location object is the cell whose parse outcome
is that same object. -/
def postedRow (empId date checkIn checkOut : String) (location : LocVal)
    (isLate isHalfDay : Bool) : AttRow :=
  ⟨empId, date, checkIn, checkOut, .obj location.checkIn location.checkOut,
    boolCell isLate, boolCell isHalfDay⟩

/-- `POST /api/attendance` (lines 159–186): the mirror is mutated first,
unconditionally; then the append is attempted.  On append failure the caller
gets `500 Failed to save attendance` and nothing is rolled back. -/
def postAttendance (st : ServerState) (empId date checkIn checkOut : String)
    (location : LocVal) (isLate isHalfDay : Bool) (appendOk : Bool) :
    ServerState × ApiResult :=
  let dayMap := (st.attendanceData empId).getD (fun _ => none)
  let stored := postedRecord checkIn checkOut location isLate isHalfDay date
  let dayMap2 : AttDayMap := fun d => if d = date then some stored else dayMap d
  let st1 : ServerState :=
    { st with attendanceData := fun e => if e = empId then some dayMap2 else st.attendanceData e }
  if appendOk then
    ({ st1 with attendanceStore :=
        st1.attendanceStore ++ [postedRow empId date checkIn checkOut location isLate isHalfDay] },
      .ok)
  else
    (st1, .err 500 "Failed to save attendance")

/-- The leave object built by `POST /api/leave`: `id: Date.now()`,
`status: 'Pending'`, `appliedOn: new Date().toLocaleDateString()`. -/
def newLeave (empId ltype fromDate toDate reason : String) (now : Nat)
    (applied : String) : Leave :=
  { id := some now, ltype := ltype, fromDate := fromDate, toDate := toDate,
    reason := reason, status := "Pending", appliedOn := applied, employeeId := empId }

/-- The sheet row appended by `POST /api/leave`:
`[empId, leave.id, leave.type, leave.fromDate, leave.toDate, leave.reason, leave.status, leave.appliedOn]`. -/
def newLeaveRow (empId ltype fromDate toDate reason : String) (now : Nat)
    (applied : String) : List String :=
  [empId, toString now, ltype, fromDate, toDate, reason, "Pending", applied]

/-- `POST /api/leave` (lines 195–225): push to the mirror list first, then
attempt the append; `500 Failed to save leave` (and no rollback) on failure. -/
def postLeave (st : ServerState) (empId ltype fromDate toDate reason : String)
    (now : Nat) (applied : String) (appendOk : Bool) : ServerState × ApiResult :=
  let lv := newLeave empId ltype fromDate toDate reason now applied
  let cur := (st.leaveData empId).getD []
  let st1 : ServerState :=
    { st with leaveData := fun e => if e = empId then some (cur ++ [lv]) else st.leaveData e }
  if appendOk then
    ({ st1 with leaveStore :=
        st1.leaveStore ++ [newLeaveRow empId ltype fromDate toDate reason now applied] },
      .ok)
  else
    (st1, .err 500 "Failed to save leave")

/-- One row of `Attendance!A:G` merged into the mirror:
`if (!attendanceData[empId]) attendanceData[empId] = \x7b\x7d;`
`attendanceData[empId][date] = \x7b…\x7d`. -/
def insertAtt (m : AttMirror) (e d : String) (record : AttRecord) : AttMirror :=
  fun e2 =>
    if e2 = e then
      some (fun d2 => if d2 = d then some record else ((m e).getD (fun _ => none)) d2)
    else m e2

/-- `loadAttendanceFromSheets` (lines 63–94), applied to the fetched rows: the
rows are merged in order by `forEach`; a `JSON.parse` throw on a malformed
location cell propagates out of `forEach` into the outer `catch`, so merging
stops there — earlier merges stay, later rows are never reached. -/
def loadAttendanceRows : List AttRow → AttMirror → AttMirror
  | [], m => m
  | r :: rest, m =>
      match parseLocCell r.location with
      | none => m
      | some (ci, co) =>
          loadAttendanceRows rest
            (insertAtt m r.empId r.date
              (.fromSheet r.checkIn r.checkOut ci co
                (r.isLate == "true") (r.isHalfDay == "true") r.date))

/-- A parsed `Leave!A:H` row (`loadLeaveFromSheets`, lines 97–123):
`id: parseInt(row[1])`, `status: row[6]` (column G), `employeeId: row[0]`. -/
def parseLeaveRow (row : List String) : Leave :=
  { id := jsParseInt (lcell row 1), ltype := lcell row 2, fromDate := lcell row 3,
    toDate := lcell row 4, reason := lcell row 5, status := lcell row 6,
    appliedOn := lcell row 7, employeeId := lcell row 0 }

/-- `if (!leaveData[empId]) leaveData[empId] = []; leaveData[empId].push(leave)`. -/
def pushLeave (m : LeaveMirror) (e : String) (lv : Leave) : LeaveMirror :=
  fun e2 => if e2 = e then some ((m e).getD [] ++ [lv]) else m e2

/-- `loadLeaveFromSheets` applied to the fetched rows, merging in order. -/
def loadLeaveRows : List (List String) → LeaveMirror → LeaveMirror
  | [], m => m
  | row :: rest, m => loadLeaveRows rest (pushLeave m (lcell row 0) (parseLeaveRow row))

/-- The store half of `PUT /api/leave/:empId/:leaveId` (lines 243–257): re-read
`Leave!A:H`, `findIndex` the row with `row[0] === empId && row[1] === leaveId`,
and write the new status to the single cell `Leave!F$\x7browIndex + 2\x7d`.
Sheet row `n` is list index `n - 1` and column F is cell index 5, so the write
lands at list index `rowIndex + 1`, cell index 5 (a write past the end of the
list is out of sheet range and modelled as a no-op). -/
def updateLeaveInStore (rows : List (List String)) (empId leaveId status : String) :
    List (List String) :=
  match rows.findIdx? (fun row => lcell row 0 == empId && lcell row 1 == leaveId) with
  | none => rows
  | some i => rows.set (i + 1) (((rows[i + 1]?).getD []).set 5 status)

/-- `leaveList.find(l => l.id.toString() === leaveId)` followed by the in-place
`leave.status = status`: the first matching element of the mirror list gets
the new status; `none` when no element matches. -/
def setStatusFirst : List Leave → String → String → Option (List Leave)
  | [], _, _ => none
  | l :: rest, leaveId, status =>
      if idToString l.id == leaveId then some ({ l with status := status } :: rest)
      else (setStatusFirst rest leaveId status).map (l :: ·)

/-- `PUT /api/leave/:empId/:leaveId` (lines 233–263): 404 when the employee has
no leave list or no list element matches; otherwise the mirror object is
mutated first, then the sheet re-read/patch is attempted (`storeOk`), with
`500 Failed to update leave status` and no rollback on store failure. -/
def putLeaveStatus (st : ServerState) (empId leaveId status : String)
    (storeOk : Bool) : ServerState × ApiResult :=
  match st.leaveData empId with
  | none => (st, .err 404 "Leave not found")
  | some lst =>
      match setStatusFirst lst leaveId status with
      | none => (st, .err 404 "Leave not found")
      | some lst2 =>
          let st1 : ServerState :=
            { st with leaveData := fun e => if e = empId then some lst2 else st.leaveData e }
          if storeOk then
            ({ st1 with leaveStore := updateLeaveInStore st1.leaveStore empId leaveId status },
              .ok)
          else
            (st1, .err 500 "Failed to update leave status")

/-- `DELETE /api/admin/employee/:id` (lines 288–294): three synchronous
`delete` statements on the mirrors, no store call, unconditional
`\x7bsuccess: true\x7d`. -/
def deleteEmployee (st : ServerState) (id : String) : ServerState × ApiResult :=
  ({ st with
      employees := fun k => if k = id then none else st.employees k,
      attendanceData := fun k => if k = id then none else st.attendanceData k,
      leaveData := fun k => if k = id then none else st.leaveData k },
    .ok)

/-- The all-`none` empty mirrors and empty store: the state before any load. -/
def emptyState : ServerState :=
  { employees := fun _ => none, attendanceData := fun _ => none,
    leaveData := fun _ => none, attendanceStore := [], leaveStore := [],
    employeeStore := [] }

/-- A small concrete state used by witnesses: two employees, a leave list for
the first one. -/
def ex1State : ServerState :=
  { emptyState with
      employees := fun k =>
        if k = "E1" then some ⟨"Alice", "pw1", true⟩
        else if k = "E2" then some ⟨"Bob", "pw2", false⟩ else none,
      leaveData := fun k =>
        if k = "E1" then some [newLeave "E1" "Sick" "2024-01-02" "2024-01-03" "flu" 1000 "1/1/2024"]
        else none }

/-- C1: an accepted `POST /api/attendance` submission lands in the attendance
mirror even when the store append fails: the caller gets the 500 error, the
store is unchanged, the mirror is exactly what the success path produces, and
`GET /api/attendance/:empId` returns the submitted record at the submitted
date. -/
theorem C1_mirror_first_on_append_failure
    (st : ServerState) (empId date checkIn checkOut : String) (location : LocVal)
    (isLate isHalfDay : Bool) :
    getAttendance (postAttendance st empId date checkIn checkOut location isLate isHalfDay false).fst
        empId date
      = some (postedRecord checkIn checkOut location isLate isHalfDay date)
    ∧ (postAttendance st empId date checkIn checkOut location isLate isHalfDay false).snd
      = .err 500 "Failed to save attendance"
    ∧ (postAttendance st empId date checkIn checkOut location isLate isHalfDay false).fst.attendanceStore
      = st.attendanceStore
    ∧ (postAttendance st empId date checkIn checkOut location isLate isHalfDay false).fst.attendanceData
      = (postAttendance st empId date checkIn checkOut location isLate isHalfDay true).fst.attendanceData := by
  refine ⟨?_, rfl, rfl, rfl⟩
  simp [postAttendance, getAttendance]

/-- C2: two sequential `POST /api/attendance` calls for the same
(employee, date) key leave the mirror holding exactly the second record for
that key (full overwrite), while the store receives both appended rows with no
deduplication. -/
theorem C2_second_post_overwrites_mirror_store_appends_twice
    (st : ServerState) (empId date : String)
    (ci1 co1 : String) (loc1 : LocVal) (late1 half1 : Bool)
    (ci2 co2 : String) (loc2 : LocVal) (late2 half2 : Bool) :
    getAttendance
        (postAttendance (postAttendance st empId date ci1 co1 loc1 late1 half1 true).fst
          empId date ci2 co2 loc2 late2 half2 true).fst empId date
      = some (postedRecord ci2 co2 loc2 late2 half2 date)
    ∧ (postAttendance (postAttendance st empId date ci1 co1 loc1 late1 half1 true).fst
          empId date ci2 co2 loc2 late2 half2 true).fst.attendanceStore
      = st.attendanceStore ++
          [postedRow empId date ci1 co1 loc1 late1 half1,
           postedRow empId date ci2 co2 loc2 late2 half2] := by
  constructor
  · simp [postAttendance, getAttendance]
  · simp [postAttendance]

/-- C5: the admin gate fails closed — no bearer token gives
`401 Access denied`, a token failing the signature/expiry check gives
`401 Invalid token`, a valid token without the admin flag gives
`403 Admin access required`, and the guarded handler runs exactly when a valid
admin token is presented. -/
theorem C5_admin_gate_fails_closed (handler : String × Bool → ApiResult) (u : String) :
    runAdminRoute none handler = .err 401 "Access denied"
    ∧ runAdminRoute (some .invalid) handler = .err 401 "Invalid token"
    ∧ runAdminRoute (some (.valid u false)) handler = .err 403 "Admin access required"
    ∧ runAdminRoute (some (.valid u true)) handler = handler (u, true) :=
  ⟨rfl, rfl, rfl, rfl⟩

/-- C6: the admin delete removes the given employee from all three mirrors in
its single synchronous step (subsequent reads are none / empty), leaves every
other key of the three mirrors untouched, performs no store write (all three
sheets unchanged), and reports success. -/
theorem C6_delete_cascades_and_preserves_frame (st : ServerState) (id : String) :
    (deleteEmployee st id).fst.employees id = none
    ∧ (∀ d, getAttendance (deleteEmployee st id).fst id d = none)
    ∧ getLeave (deleteEmployee st id).fst id = []
    ∧ (∀ k, k ≠ id →
        (deleteEmployee st id).fst.employees k = st.employees k
        ∧ (deleteEmployee st id).fst.attendanceData k = st.attendanceData k
        ∧ (deleteEmployee st id).fst.leaveData k = st.leaveData k)
    ∧ (deleteEmployee st id).fst.attendanceStore = st.attendanceStore
    ∧ (deleteEmployee st id).fst.leaveStore = st.leaveStore
    ∧ (deleteEmployee st id).fst.employeeStore = st.employeeStore
    ∧ (deleteEmployee st id).snd = .ok := by
  refine ⟨by simp [deleteEmployee], fun d => by simp [deleteEmployee, getAttendance],
    by simp [deleteEmployee, getLeave],
    fun k hk => ⟨by simp [deleteEmployee, hk], by simp [deleteEmployee, hk],
      by simp [deleteEmployee, hk]⟩, rfl, rfl, rfl, rfl⟩

/-- Witness for C6 at a concrete state: deleting `E1` removes `E1`'s entries
and leaves `E2`'s employee record in place. -/
theorem C6_delete_cascades_and_preserves_frame_witness :
    (deleteEmployee ex1State "E1").fst.employees "E1" = none
    ∧ getLeave (deleteEmployee ex1State "E1").fst "E1" = []
    ∧ (deleteEmployee ex1State "E1").fst.employees "E2" = ex1State.employees "E2" := by
  have h := C6_delete_cascades_and_preserves_frame ex1State "E1"
  exact ⟨h.1, h.2.2.1, (h.2.2.2.1 "E2" (by decide)).1⟩

/-- C7: for an employee present in the mirror, logging in with the stored
password succeeds with that employee's name and a token whose payload is
exactly the stored identifier and admin flag; the state is not mutated. -/
theorem C7_login_success_token_payload (st : ServerState) (id : String) (emp : Employee)
    (h : st.employees id = some emp) :
    (login st id emp.password).snd = .ok emp.name ⟨id, emp.isAdmin⟩
    ∧ (login st id emp.password).fst = st := by
  simp [login, h]

/-- Witness for C7: logging in as `E1` with the stored password `pw1` yields
Alice's name and an admin token for `E1`. -/
theorem C7_login_success_token_payload_witness :
    (login ex1State "E1" "pw1").snd = .ok "Alice" ⟨"E1", true⟩ := by
  have h := C7_login_success_token_payload ex1State "E1" ⟨"Alice", "pw1", true⟩ (by decide)
  exact h.1

/-- C8: a login with an unknown identifier or a wrong password fails with the
single `401 Invalid credentials` response (the two cases are
indistinguishable), no token is issued, and the state is unchanged. -/
theorem C8_login_failure_indistinguishable (st : ServerState) (id pw : String)
    (h : st.employees id = none ∨ ∃ emp, st.employees id = some emp ∧ emp.password ≠ pw) :
    (login st id pw).snd = .fail 401 "Invalid credentials"
    ∧ (login st id pw).fst = st := by
  rcases h with h | ⟨emp, he, hp⟩
  · simp [login, h]
  · simp [login, he, hp]

/-- Witness for C8: an unknown id and a wrong password for a known id both
produce the same `401 Invalid credentials` failure. -/
theorem C8_login_failure_indistinguishable_witness :
    (login ex1State "E9" "whatever").snd = .fail 401 "Invalid credentials"
    ∧ (login ex1State "E1" "wrong").snd = .fail 401 "Invalid credentials" := by
  refine ⟨(C8_login_failure_indistinguishable ex1State "E9" "whatever" (Or.inl (by decide))).1,
    (C8_login_failure_indistinguishable ex1State "E1" "wrong"
      (Or.inr ⟨⟨"Alice", "pw1", true⟩, by decide, by decide⟩)).1⟩

/-- C10: the admin delete reports success for every identifier, present or
not, and is idempotent — a second delete of the same identifier leaves the
state exactly as after the first and also reports success. -/
theorem C10_delete_idempotent_always_succeeds (st : ServerState) (id : String) :
    (deleteEmployee (deleteEmployee st id).fst id).fst = (deleteEmployee st id).fst
    ∧ (deleteEmployee st id).snd = .ok
    ∧ (deleteEmployee (deleteEmployee st id).fst id).snd = .ok := by
  refine ⟨?_, rfl, rfl⟩
  refine ServerState.ext ?_ ?_ ?_ rfl rfl rfl
  all_goals
    funext k
    by_cases hk : k = id <;> simp [deleteEmployee, hk]

/-- C3 counterexample: leave ids are raw `Date.now()` values.  Two sequential
`POST /api/leave` calls by the same employee whose `Date.now()` reads fall in
the same millisecond (a non-decreasing clock allows this) are assigned *equal*
ids — the second id is not strictly greater than the first. -/
theorem C3_counterexample_equal_ids_same_millisecond :
    ((postLeave (postLeave emptyState "E1" "Sick" "2024-01-02" "2024-01-03" "flu" 1000 "1/1/2024" true).fst
        "E1" "Casual" "2024-02-02" "2024-02-03" "trip" 1000 "1/1/2024" true).fst.leaveData "E1")
      = some [newLeave "E1" "Sick" "2024-01-02" "2024-01-03" "flu" 1000 "1/1/2024",
              newLeave "E1" "Casual" "2024-02-02" "2024-02-03" "trip" 1000 "1/1/2024"]
    ∧ (newLeave "E1" "Casual" "2024-02-02" "2024-02-03" "trip" 1000 "1/1/2024").id
      = (newLeave "E1" "Sick" "2024-01-02" "2024-01-03" "flu" 1000 "1/1/2024").id := by
  constructor
  · decide
  · rfl

/-- C3 amended: for two sequential `POST /api/leave` calls by the same
employee, made at clock values `t1 ≤ t2` (the `Date.now()` clock is
non-decreasing), both requests are appended to the employee's mirror list in
order, and the second assigned id is greater than **or equal to** the first —
strictly greater exactly when the clock advanced between the calls. -/
theorem C3_amended_leave_ids_nondecreasing
    (st : ServerState) (e ty1 f1 d1 r1 ap1 ty2 f2 d2 r2 ap2 : String)
    (t1 t2 : Nat) (ok1 ok2 : Bool) (h : t1 ≤ t2) :
    ((postLeave (postLeave st e ty1 f1 d1 r1 t1 ap1 ok1).fst
        e ty2 f2 d2 r2 t2 ap2 ok2).fst.leaveData e)
      = some ((st.leaveData e).getD [] ++
          [newLeave e ty1 f1 d1 r1 t1 ap1, newLeave e ty2 f2 d2 r2 t2 ap2])
    ∧ ∃ n1 n2, (newLeave e ty1 f1 d1 r1 t1 ap1).id = some n1
        ∧ (newLeave e ty2 f2 d2 r2 t2 ap2).id = some n2
        ∧ n1 ≤ n2 ∧ (t1 < t2 → n1 < n2) := by
  constructor
  · cases ok1 <;> cases ok2 <;> simp [postLeave]
  · exact ⟨t1, t2, rfl, rfl, h, fun h2 => h2⟩

/-- Witness for the amended C3: with the clock advancing from 1000 to 2000,
both requests are in the mirror and the ids 1000 and 2000 are strictly
increasing. -/
theorem C3_amended_leave_ids_nondecreasing_witness :
    ((postLeave (postLeave emptyState "E1" "Sick" "2024-01-02" "2024-01-03" "flu" 1000 "1/1/2024" true).fst
        "E1" "Casual" "2024-02-02" "2024-02-03" "trip" 2000 "1/1/2024" true).fst.leaveData "E1")
      = some [newLeave "E1" "Sick" "2024-01-02" "2024-01-03" "flu" 1000 "1/1/2024",
              newLeave "E1" "Casual" "2024-02-02" "2024-02-03" "trip" 2000 "1/1/2024"]
    ∧ (1000 : Nat) < 2000 := by
  have h := C3_amended_leave_ids_nondecreasing emptyState "E1" "Sick" "2024-01-02"
    "2024-01-03" "flu" "1/1/2024" "Casual" "2024-02-02" "2024-02-03" "trip" "1/1/2024"
    1000 2000 true true (by decide)
  refine ⟨?_, by decide⟩
  rw [h.1]
  rfl

/-- An attendance sheet row whose serialized location cell is malformed
(non-empty, `JSON.parse` throws). -/
def mrowEx : AttRow :=
  ⟨"E1", "2024-01-01", "09:00", "17:00", .malformed, "false", "false"⟩

/-- An attendance sheet row with a falsy (missing/empty) location cell. -/
def growEx : AttRow :=
  ⟨"E2", "2024-01-01", "09:00", "17:00", .blank, "false", "false"⟩

/-- C4 counterexample: a malformed location cell does not fall back to an
empty structure — the `JSON.parse` throw escapes `forEach` into the outer
`catch`, so with a malformed first row neither that row nor the following
well-formed row reaches the mirror: the load of the remaining rows fails. -/
theorem C4_counterexample_malformed_aborts_load :
    loadAttendanceRows [mrowEx, growEx] (fun _ => none) "E2" = none
    ∧ loadAttendanceRows [mrowEx, growEx] (fun _ => none) "E1" = none :=
  ⟨rfl, rfl⟩

/-- C4 amended: only a *falsy* (missing/empty) location cell falls back to the
empty structure and lets the load continue; a malformed non-empty cell aborts
the load at that row — every row before it is merged, the malformed row and
every row after it are dropped. -/
theorem C4_amended_blank_falls_back_malformed_aborts :
    (∀ (pre post : List AttRow) (r : AttRow) (m : AttMirror),
        (∀ x ∈ pre, x.location ≠ .malformed) → r.location = .malformed →
        loadAttendanceRows (pre ++ r :: post) m = loadAttendanceRows pre m)
    ∧ (∀ (r : AttRow) (rest : List AttRow) (m : AttMirror), r.location = .blank →
        loadAttendanceRows (r :: rest) m
          = loadAttendanceRows rest (insertAtt m r.empId r.date
              (.fromSheet r.checkIn r.checkOut none none
                (r.isLate == "true") (r.isHalfDay == "true") r.date))) := by
  constructor
  · intro pre post r m hpre hr
    induction pre generalizing m with
    | nil =>
        simp only [List.nil_append, loadAttendanceRows, hr, parseLocCell]
    | cons x rest2 ih =>
        have hx : x.location ≠ .malformed := hpre x (List.mem_cons_self x rest2)
        have hrest : ∀ y ∈ rest2, y.location ≠ .malformed :=
          fun y hy => hpre y (List.mem_cons_of_mem x hy)
        cases hxl : x.location with
        | malformed => exact absurd hxl hx
        | blank =>
            simp only [List.cons_append, loadAttendanceRows, hxl, parseLocCell]
            exact ih _ hrest
        | obj ci co =>
            simp only [List.cons_append, loadAttendanceRows, hxl, parseLocCell]
            exact ih _ hrest
  · intro r rest m hr
    simp only [loadAttendanceRows, hr, parseLocCell]

/-- Witness for the amended C4: prepending the malformed row `mrowEx` after
the well-formed `growEx` aborts the load right there (the result is the load
of the prefix alone), and `growEx`'s blank cell merges with the empty-location
fallback. -/
theorem C4_amended_blank_falls_back_malformed_aborts_witness :
    loadAttendanceRows [growEx, mrowEx] (fun _ => none)
      = loadAttendanceRows [growEx] (fun _ => none)
    ∧ loadAttendanceRows [growEx] (fun _ => none)
      = insertAtt (fun _ => none) "E2" "2024-01-01"
          (.fromSheet "09:00" "17:00" none none false false "2024-01-01") := by
  have h := C4_amended_blank_falls_back_malformed_aborts
  refine ⟨?_, ?_⟩
  · have := h.1 [growEx] [] mrowEx (fun _ => none) (by decide) rfl
    simpa using this
  · exact h.2 growEx [] (fun _ => none) rfl

/-- Example leave sheet rows (as appended by `POST /api/leave`). -/
def r0ex : List String :=
  ["E1", "1000", "Sick", "2024-01-02", "2024-01-03", "flu", "Pending", "1/1/2024"]

/-- A second example leave sheet row, for a different employee. -/
def r1ex : List String :=
  ["E2", "2000", "Casual", "2024-02-02", "2024-02-03", "trip", "Pending", "1/2/2024"]

/-- The statuses an employee's mirror list holds after loading the given sheet
rows into an empty mirror. -/
def loadedStatuses (rows : List (List String)) (e : String) : List String :=
  ((loadLeaveRows rows (fun _ => none) e).getD []).map Leave.status

/-- Unfolding of `loadLeaveRows` at one key: the rows whose employee column
matches are appended, in order, to whatever the mirror held. -/
theorem loadLeaveRows_apply (rows : List (List String)) (m : LeaveMirror) (e : String) :
    loadLeaveRows rows m e =
      if ((rows.filter fun r => lcell r 0 == e)).isEmpty then m e
      else some ((m e).getD [] ++ ((rows.filter fun r => lcell r 0 == e)).map parseLeaveRow) := by
  induction rows generalizing m with
  | nil => simp [loadLeaveRows]
  | cons row rest ih =>
      rw [loadLeaveRows, ih]
      by_cases hk : lcell row 0 = e
      · by_cases hrest : ((rest.filter fun r => lcell r 0 == e)).isEmpty
        · rw [List.isEmpty_iff] at hrest
          simp [List.filter_cons, hk, hrest, pushLeave]
        · simp [List.filter_cons, hk, hrest, pushLeave, List.append_assoc]
      · have hme : pushLeave m (lcell row 0) (parseLeaveRow row) e = m e := by
          have hne : ¬(e = lcell row 0) := fun hh => hk hh.symm
          simp [pushLeave, hne]
        simp [List.filter_cons, hk, hme]

/-- The status list a load produces for one employee, read off the raw rows:
the status comes from cell index 6 (column G). -/
theorem loadedStatuses_eq (rows : List (List String)) (e : String) :
    loadedStatuses rows e
      = ((rows.filter fun r => lcell r 0 == e)).map fun r => lcell r 6 := by
  unfold loadedStatuses
  rw [loadLeaveRows_apply]
  by_cases hh : ((rows.filter fun r => lcell r 0 == e)).isEmpty
  · rw [List.isEmpty_iff] at hh
    simp [hh]
  · simp [hh]
    intro a ha hae
    rfl

/-- Replacing a row by one with the same employee cell (index 0) and the same
status cell (index 6) does not change any employee's loaded status list. -/
theorem filterMapStatus_set (rows : List (List String)) (j : Nat) (r2 : List String)
    (h : ∀ rj, rows[j]? = some rj → lcell r2 0 = lcell rj 0 ∧ lcell r2 6 = lcell rj 6)
    (e : String) :
    (((rows.set j r2).filter fun r => lcell r 0 == e).map fun r => lcell r 6)
      = ((rows.filter fun r => lcell r 0 == e).map fun r => lcell r 6) := by
  induction rows generalizing j with
  | nil => simp
  | cons row rest ih =>
      cases j with
      | zero =>
          obtain ⟨hkey, hstat⟩ := h row (by simp)
          simp only [List.set_cons_zero, List.filter_cons]
          by_cases hk : lcell row 0 = e
          · simp [hkey, hk, hstat]
          · simp [hkey, hk]
      | succ j2 =>
          have ih2 := ih j2 (fun rj hrj => h rj (by simpa using hrj))
          simp only [List.set_cons_succ, List.filter_cons]
          by_cases hk : lcell row 0 = e
          · simp [hk, ih2]
          · simp [hk, ih2]

/-- C9 counterexample: the status patch does *not* land in the matched row.
With the match at list index 0 (sheet row 1), `Leave!F$\x7browIndex + 2\x7d`
is sheet row 2 — the row *after* the match: the matched row keeps its reason
cell `flu`, and the following row's reason cell (index 5, column F) is
clobbered with the new status. -/
theorem C9_counterexample_patch_misses_matched_row :
    updateLeaveInStore [r0ex, r1ex] "E1" "1000" "Approved"
      = [r0ex, ["E2", "2000", "Casual", "2024-02-02", "2024-02-03", "Approved", "Pending", "1/2/2024"]]
    ∧ lcell (((updateLeaveInStore [r0ex, r1ex] "E1" "1000" "Approved")[0]?).getD []) 5
      ≠ "Approved"
    ∧ lcell r0ex 5 = "flu" := by
  refine ⟨by decide, by decide, by decide⟩

/-- C9 amended: the admin leave-status update writes the new status to column
F (cell index 5) of the row *following* the matched row (list index
`rowIndex + 1`, an off-by-one from the header adjustment), while
`loadLeaveFromSheets` reads a leave's status from column G (cell index 6);
consequently, for every store state, updating and then reloading the mirror
from the store yields exactly the pre-update statuses — the newly written
status never survives the round trip. -/
theorem C9_amended_update_reload_keeps_old_status
    (rows : List (List String)) (empId leaveId status : String) :
    (∀ e, loadedStatuses (updateLeaveInStore rows empId leaveId status) e
        = loadedStatuses rows e)
    ∧ (∀ i, rows.findIdx? (fun row => lcell row 0 == empId && lcell row 1 == leaveId) = some i →
        updateLeaveInStore rows empId leaveId status
          = rows.set (i + 1) (((rows[i + 1]?).getD []).set 5 status)) := by
  constructor
  · intro e
    rw [loadedStatuses_eq, loadedStatuses_eq]
    unfold updateLeaveInStore
    cases hf : rows.findIdx? (fun row => lcell row 0 == empId && lcell row 1 == leaveId) with
    | none => rfl
    | some i =>
        apply filterMapStatus_set
        intro rj hrj
        have hget : ((rows[i + 1]?).getD []) = rj := by rw [hrj]; rfl
        rw [hget]
        constructor
        · unfold lcell
          rw [List.getElem?_set_ne (by omega)]
        · unfold lcell
          rw [List.getElem?_set_ne (by omega)]
  · intro i hf
    simp only [updateLeaveInStore, hf]

/-- Witness for the amended C9: with the match at index 0, the patch lands at
list index 1, and employee `E2`'s reloaded status is still `Pending` even
though the written value was `Approved`. -/
theorem C9_amended_update_reload_keeps_old_status_witness :
    loadedStatuses (updateLeaveInStore [r0ex, r1ex] "E1" "1000" "Approved") "E2"
      = loadedStatuses [r0ex, r1ex] "E2"
    ∧ updateLeaveInStore [r0ex, r1ex] "E1" "1000" "Approved"
      = [r0ex, r1ex].set 1 ((([r0ex, r1ex][1]?).getD []).set 5 "Approved")
    ∧ loadedStatuses [r0ex, r1ex] "E2" = ["Pending"] := by
  have h := C9_amended_update_reload_keeps_old_status [r0ex, r1ex] "E1" "1000" "Approved"
  exact ⟨h.1 "E2", h.2 0 (by decide), by decide⟩
